import Mathlib

/-!
Verification of the tax-au-backend core: the tax estimator of the
calculate-tax route and the W-2 field extractor of the dashboard route.

The JavaScript source is shallowly embedded: numbers are modelled as exact
rationals, JS objects whose values are summed become lists of optional
rationals, regexes become abstract matcher functions giving the first
match's designated capture group, and JS falsiness of the empty string is
modelled explicitly.
-/

namespace TaxAU

/-! ## Tax estimator (calculate-tax route) -/

/-- The bracket cascade of the calculate-tax route, applied when total
income is positive:
`if (totalIncome <= 10275) taxOwed = totalIncome * 0.10; else if ...`. -/
def bracketTaxJS (t : ℚ) : ℚ :=
  if t ≤ 10275 then t * 0.10
  else if t ≤ 41775 then 1027.50 + (t - 10275) * 0.12
  else if t ≤ 89450 then 4807.50 + (t - 41775) * 0.22
  else 15213.50 + (t - 89450) * 0.24

/-- `Object.values(income).reduce((sum, val) => sum + (val || 0), 0)`:
missing or null income entries contribute zero. -/
def totalIncomeOf (income : List (Option ℚ)) : ℚ :=
  income.foldl (fun s v => s + v.getD 0) 0

/-- The tax owed before the dependent deduction: `let taxOwed = 0;` followed
by the bracket cascade guarded by `if (totalIncome > 0)`. -/
def preDeductionTax (t : ℚ) : ℚ :=
  if 0 < t then bracketTaxJS t else 0

/-- `Math.round`: rounds to the nearest integer, half toward positive
infinity. -/
def roundJS (x : ℚ) : ℤ := ⌊x + 1 / 2⌋

/-- The JSON `calculation` object produced by the calculate-tax route. -/
structure TaxCalcResult where
  totalIncome : ℚ
  dependentsCount : ℕ
  dependentDeduction : ℚ
  taxOwed : ℚ
  effectiveRate : ℚ
deriving Repr, DecidableEq

/-- The calculate-tax handler's computation: sum the income object, apply
the bracket cascade when total income is positive, subtract the flat $2000
per-dependent deduction clamped at zero (`Math.max(0, taxOwed -
dependentDeduction)`), round tax owed to cents, and compute the effective
rate with an explicit zero-income branch
(`totalIncome > 0 ? Math.round((taxOwed / totalIncome) * 10000) / 100 : 0`). -/
def calculateTax (income : List (Option ℚ)) (dependentsCount : ℕ) : TaxCalcResult :=
  let totalIncome := totalIncomeOf income
  let pre := preDeductionTax totalIncome
  let dependentDeduction := (dependentsCount : ℚ) * 2000
  let taxOwed := max 0 (pre - dependentDeduction)
  { totalIncome := totalIncome
    dependentsCount := dependentsCount
    dependentDeduction := dependentDeduction
    taxOwed := (roundJS (taxOwed * 100) : ℚ) / 100
    effectiveRate :=
      if 0 < totalIncome then (roundJS (taxOwed / totalIncome * 10000) : ℚ) / 100 else 0 }

/-- Spec-side reference bracket table, rows (lower bound, upper bound, base
amount, marginal rate); the unbounded last bracket is the fallback of
`refTaxFromTable`. -/
def refBrackets : List (ℚ × ℚ × ℚ × ℚ) :=
  [(0, 10275, 0, 0.10), (10275, 41775, 1027.50, 0.12), (41775, 89450, 4807.50, 0.22)]

/-- Spec-side cumulative evaluation: locate the first bracket whose upper
bound is at least the total income (a boundary value belongs to the lower
bracket); tax equals that bracket's base amount plus (total income minus
the bracket's lower bound) times its marginal rate. -/
def refTaxFromTable : List (ℚ × ℚ × ℚ × ℚ) → ℚ → ℚ
  | [], t => 15213.50 + (t - 89450) * 0.24
  | b :: rest, t =>
    if t ≤ b.2.1 then b.2.2.1 + (t - b.1) * b.2.2.2 else refTaxFromTable rest t

/-- Spec-side piecewise bracket formula over the reference table. -/
def refBracketTax (t : ℚ) : ℚ := refTaxFromTable refBrackets t

/-- C1: for every positive total income, the tax owed before the dependent
deduction computed by the calculate-tax handler equals the piecewise bracket
formula over the reference table, and at the bracket boundary 10275 exactly
the pre-deduction tax is 1027.50 (the boundary belongs to the lower bracket
via the less-or-equal comparison). -/
theorem preDeductionTax_matches_refTable :
    (∀ t : ℚ, 0 < t → preDeductionTax t = refBracketTax t) ∧
      preDeductionTax 10275 = 1027.50 := by
  constructor
  · intro t ht
    simp only [preDeductionTax, bracketTaxJS, refBracketTax, refBrackets, refTaxFromTable,
      if_pos ht]
    split_ifs <;> ring
  · norm_num [preDeductionTax, bracketTaxJS]

/-- Witness for C1 at total income 20000. -/
theorem preDeductionTax_matches_refTable_at_20000 :
    preDeductionTax 20000 = refBracketTax 20000 :=
  preDeductionTax_matches_refTable.1 20000 (by norm_num)

/-- C4: for total income 50000 with 2 dependents, the calculate-tax handler
returns tax owed 2617.00 (pre-deduction tax 6617.00 minus the 4000 dependent
deduction) and effective rate 5.23. -/
theorem calculateTax_at_50000_2 :
    (calculateTax [some 50000] 2).taxOwed = 2617 ∧
      (calculateTax [some 50000] 2).effectiveRate = 5.23 := by
  have h1 : totalIncomeOf [some 50000] = 50000 := by
    norm_num [totalIncomeOf]
  have h2 : preDeductionTax 50000 = 6617 := by
    norm_num [preDeductionTax, bracketTaxJS]
  have h3 : max (0 : ℚ) (6617 - (2 : ℕ) * 2000) = 2617 := by norm_num
  constructor <;>
    simp only [calculateTax, h1, h2, h3] <;> norm_num [roundJS]

/-- C5: for every income aggregate and dependent count, the tax owed
returned after subtracting the flat $2000-per-dependent deduction is
non-negative, and it is exactly zero whenever the deduction is at least the
bracket-computed tax: `Math.max(0, ...)` clamps the result at zero before
rounding. -/
theorem calculateTax_taxOwed_nonneg :
    (∀ (income : List (Option ℚ)) (deps : ℕ), 0 ≤ (calculateTax income deps).taxOwed) ∧
      (∀ (income : List (Option ℚ)) (deps : ℕ),
        preDeductionTax (totalIncomeOf income) ≤ (deps : ℚ) * 2000 →
        (calculateTax income deps).taxOwed = 0) := by
  constructor
  · intro income deps
    simp only [calculateTax]
    have hfloor : (0 : ℤ) ≤ roundJS
        (max 0 (preDeductionTax (totalIncomeOf income) - (deps : ℚ) * 2000) * 100) := by
      refine Int.le_floor.mpr ?_
      have hm : (0 : ℚ) ≤ max 0 (preDeductionTax (totalIncomeOf income) - (deps : ℚ) * 2000) :=
        le_max_left _ _
      push_cast
      nlinarith
    positivity
  · intro income deps h
    have hmax : max (0 : ℚ) (preDeductionTax (totalIncomeOf income) - (deps : ℚ) * 2000) = 0 :=
      max_eq_left (by linarith)
    simp only [calculateTax, hmax]
    norm_num [roundJS]

/-- Witness for C5: income 5000 with one dependent is clamped to zero. -/
theorem calculateTax_taxOwed_nonneg_witness :
    0 ≤ (calculateTax [some 5000] 1).taxOwed ∧ (calculateTax [some 5000] 1).taxOwed = 0 :=
  ⟨calculateTax_taxOwed_nonneg.1 [some 5000] 1,
    calculateTax_taxOwed_nonneg.2 [some 5000] 1 (by
      norm_num [preDeductionTax, bracketTaxJS, totalIncomeOf])⟩

/-- Helper: the fold summing an income object whose entries are all absent
or zero stays at its initial accumulator. -/
theorem foldl_income_all_zero (income : List (Option ℚ))
    (h : ∀ v ∈ income, v = none ∨ v = some 0) (a : ℚ) :
    income.foldl (fun s v => s + v.getD 0) a = a := by
  induction income generalizing a with
  | nil => rfl
  | cons v rest ih =>
    have hv : v.getD 0 = 0 := by
      rcases h v (by simp) with h0 | h0 <;> simp [h0]
    simp only [List.foldl_cons, hv, add_zero]
    exact ih (fun w hw => h w (by simp [hw])) a

/-- C6: when every income category is absent or zero, the calculate-tax
handler returns tax owed 0 and effective rate 0; the zero-income case is
the explicit `totalIncome > 0` branch, so no division is performed. -/
theorem calculateTax_zero_income (income : List (Option ℚ)) (deps : ℕ)
    (h : ∀ v ∈ income, v = none ∨ v = some 0) :
    (calculateTax income deps).taxOwed = 0 ∧
      (calculateTax income deps).effectiveRate = 0 := by
  have ht : totalIncomeOf income = 0 := foldl_income_all_zero income h 0
  have hpre : preDeductionTax 0 = 0 := by norm_num [preDeductionTax]
  have hmax : max (0 : ℚ) (0 - (deps : ℚ) * 2000) = 0 := by
    refine max_eq_left ?_
    have : (0 : ℚ) ≤ (deps : ℚ) * 2000 := by positivity
    linarith
  constructor <;> simp only [calculateTax, ht, hpre, hmax] <;> norm_num [roundJS]

/-- Witness for C6: the all-zero income object with three dependents. -/
theorem calculateTax_zero_income_at_concrete :
    (calculateTax [none, some 0] 3).taxOwed = 0 ∧
      (calculateTax [none, some 0] 3).effectiveRate = 0 :=
  calculateTax_zero_income [none, some 0] 3 (by
    intro v hv
    simp only [List.mem_cons, List.not_mem_nil, or_false] at hv
    exact hv)

/-- C8 counterexample: the bracket cascade is not monotone across the third
bracket boundary: at total income 89450 the tax is 15296.00, but at the
larger income 89500 it is only 15225.50, because the fourth bracket's base
15213.50 corresponds to a lower bound of 89075, not the 89450 used in the
comparison. -/
theorem bracketTax_not_monotone_at_89450 :
    bracketTaxJS 89450 = 15296 ∧ bracketTaxJS 89500 = 15225.50 ∧
      ¬bracketTaxJS 89450 ≤ bracketTaxJS 89500 := by
  refine ⟨by norm_num [bracketTaxJS], by norm_num [bracketTaxJS], ?_⟩
  norm_num [bracketTaxJS]

/-- C8 amended: the bracket cascade is monotone non-decreasing within the
region of the first three brackets, within the unbounded fourth bracket,
and across the 89450 boundary whenever the smaller income is at most 89075;
only pairs straddling the 89450 boundary with the smaller income above
89075 can decrease. -/
theorem bracketTax_monotone_away_from_boundary :
    (∀ t1 t2 : ℚ, 0 ≤ t1 → t1 ≤ t2 → t2 ≤ 89450 →
        bracketTaxJS t1 ≤ bracketTaxJS t2) ∧
      (∀ t1 t2 : ℚ, 89450 < t1 → t1 ≤ t2 →
        bracketTaxJS t1 ≤ bracketTaxJS t2) ∧
      (∀ t1 t2 : ℚ, 0 ≤ t1 → t1 ≤ 89075 → t1 ≤ t2 →
        bracketTaxJS t1 ≤ bracketTaxJS t2) := by
  refine ⟨?_, ?_, ?_⟩
  · intro t1 t2 h1 h2 h3
    simp only [bracketTaxJS]
    split_ifs <;> norm_num <;> linarith
  · intro t1 t2 h1 h2
    simp only [bracketTaxJS]
    split_ifs <;> norm_num <;> linarith
  · intro t1 t2 h1 h2 h3
    simp only [bracketTaxJS]
    split_ifs <;> norm_num <;> linarith

/-- Witness for the amended C8: one instance of each conjunct. -/
theorem bracketTax_monotone_witness :
    bracketTaxJS 5000 ≤ bracketTaxJS 50000 ∧
      bracketTaxJS 90000 ≤ bracketTaxJS 95000 ∧
      bracketTaxJS 80000 ≤ bracketTaxJS 90000 :=
  ⟨bracketTax_monotone_away_from_boundary.1 5000 50000 (by norm_num) (by norm_num)
      (by norm_num),
    bracketTax_monotone_away_from_boundary.2.1 90000 95000 (by norm_num) (by norm_num),
    bracketTax_monotone_away_from_boundary.2.2 80000 90000 (by norm_num) (by norm_num)
      (by norm_num)⟩

/-! ## W-2 field extractor (dashboard route) -/

/-- A regex rule of the extractor, modelled extensionally by what
`text.match(pattern)` yields for its designated capture group (group 1):
`none` when the match is null, `some none` when the pattern matched but
group 1 did not participate (JS `undefined`), and `some (some g)` when
group 1 captured the substring `g`. -/
def Pattern : Type := String → Option (Option String)

/-- JS `String.prototype.trim`: remove leading and trailing whitespace. -/
def trimJS (s : String) : String :=
  String.mk
    (((s.toList.dropWhile (fun c => c.isWhitespace)).reverse.dropWhile
        (fun c => c.isWhitespace)).reverse)

/-- `extractField(text, patterns)`: for each rule in order, `if (match &&
match[1]) return match[1].trim();` — the guard requires a non-null match
whose group 1 is a truthy (hence non-empty) string, and the trim happens
only on the returned value, after the truthiness test. -/
def extractField (text : String) : List Pattern → Option String
  | [] => none
  | p :: rest =>
    match p text with
    | some (some g) => if g = "" then extractField text rest else some (trimJS g)
    | some none => extractField text rest
    | none => extractField text rest

/-- `match[1].replace(/,/g, '')`: remove every comma character. -/
def stripCommas (g : String) : String :=
  String.mk (g.toList.filter (fun c => c != ','))

/-- The post-processing of `extractMoneyField`: strip commas and, when the
result contains no decimal point, append ".00"
(`amount.includes('.') ? amount : amount + '.00'`). -/
def normalizeMoney (g : String) : String :=
  if '.' ∈ (stripCommas g).toList then stripCommas g else stripCommas g ++ ".00"

/-- String append concatenates the character lists. -/
theorem toList_append (a b : String) : (a ++ b).toList = a.toList ++ b.toList := rfl

/-- `extractMoneyField(text, patterns)`: same loop and truthiness guard as
`extractField`, returning the normalized capture. -/
def extractMoneyField (text : String) : List Pattern → Option String
  | [] => none
  | p :: rest =>
    match p text with
    | some (some g) =>
      if g = "" then extractMoneyField text rest else some (normalizeMoney g)
    | some none => extractMoneyField text rest
    | none => extractMoneyField text rest

/-- The raw capture selected by the `extractMoneyField` loop: the group-1
value of the first rule whose capture is truthy. -/
def moneyCapture (text : String) : List Pattern → Option String
  | [] => none
  | p :: rest =>
    match p text with
    | some (some g) => if g = "" then moneyCapture text rest else some g
    | some none => moneyCapture text rest
    | none => moneyCapture text rest

/-- The string contains exactly one decimal point, followed by exactly two
digits. -/
def hasTwoDecimals (s : String) : Bool :=
  s.toList.count '.' == 1 &&
    (match s.toList.dropWhile (fun c => c != '.') with
     | _ :: frac => frac.length == 2 && frac.all (fun c => c.isDigit)
     | [] => false)

/-- `extractMoneyField` is the normalization of the capture selected by
its loop. -/
theorem extractMoneyField_eq_map_moneyCapture (text : String) (pats : List Pattern) :
    extractMoneyField text pats = (moneyCapture text pats).map normalizeMoney := by
  induction pats with
  | nil => rfl
  | cons p rest ih =>
    simp only [extractMoneyField, moneyCapture]
    cases hp : p text with
    | none => exact ih
    | some o =>
      cases o with
      | none => exact ih
      | some g =>
        by_cases hg : g = "" <;> simp [hg, ih]

/-- Helper: `dropWhile` skips a whole prefix whose elements all satisfy the
predicate. -/
theorem dropWhile_append_of_all {p : Char → Bool} (l l2 : List Char)
    (h : ∀ c ∈ l, p c = true) :
    (l ++ l2).dropWhile p = l2.dropWhile p := by
  induction l with
  | nil => rfl
  | cons c cs ih =>
    have hc : p c = true := h c (by simp)
    simp only [List.cons_append, List.dropWhile_cons_of_pos hc]
    exact ih (fun d hd => h d (by simp [hd]))

/-- C2 amended: when the loop selects capture `g`, the returned string is
`normalizeMoney g`; it never contains a comma, and it has exactly one
decimal point with exactly two digits after it whenever the capture had no
decimal point (a capture that already has a fractional part keeps it
verbatim, however many digits it has). -/
theorem extractMoneyField_normalizes (text : String) (pats : List Pattern) (g : String)
    (h : moneyCapture text pats = some g) :
    extractMoneyField text pats = some (normalizeMoney g) ∧
      ',' ∉ (normalizeMoney g).toList ∧
      ('.' ∉ g.toList → hasTwoDecimals (normalizeMoney g) = true) := by
  have hstrip : (stripCommas g).toList = g.toList.filter (fun c => c != ',') := rfl
  have hnocomma : ',' ∉ (stripCommas g).toList := by
    rw [hstrip]
    intro hc
    have := (List.mem_filter.mp hc).2
    simp at this
  refine ⟨?_, ?_, ?_⟩
  · rw [extractMoneyField_eq_map_moneyCapture, h]
    rfl
  · unfold normalizeMoney
    by_cases hdot : '.' ∈ (stripCommas g).toList
    · rw [if_pos hdot]
      exact hnocomma
    · rw [if_neg hdot, toList_append]
      intro hc
      rcases List.mem_append.mp hc with hc | hc
      · exact hnocomma hc
      · simp at hc
  · intro hno
    have hno2 : '.' ∉ (stripCommas g).toList := by
      rw [hstrip]
      intro hc
      exact hno (List.mem_filter.mp hc).1
    unfold normalizeMoney
    rw [if_neg hno2]
    unfold hasTwoDecimals
    rw [toList_append]
    have hcount : (stripCommas g).toList.count '.' = 0 := List.count_eq_zero.mpr hno2
    have hdrop :
        ((stripCommas g).toList ++ (".00" : String).toList).dropWhile (fun c => c != '.') =
          (".00" : String).toList.dropWhile (fun c => c != '.') := by
      refine dropWhile_append_of_all _ _ ?_
      intro c hc
      have : c ≠ '.' := fun hcc => hno2 (hcc ▸ hc)
      simpa using this
    rw [List.count_append, hcount, hdrop]
    decide

/-- A concrete rule capturing "5,000" on the text "W2". -/
def thousandsPat : Pattern := fun t => if t = "W2" then some (some "5,000") else none

/-- Witness for the amended C2: the capture "5,000" is normalized to
"5000.00". -/
theorem extractMoneyField_normalizes_witness :
    extractMoneyField "W2" [thousandsPat] = some (normalizeMoney "5,000") ∧
      ',' ∉ (normalizeMoney "5,000").toList ∧
      ('.' ∉ "5,000".toList → hasTwoDecimals (normalizeMoney "5,000") = true) :=
  extractMoneyField_normalizes "W2" [thousandsPat] "5,000" (by rfl)

/-- A concrete rule capturing "1,234.5" on the text "W". -/
def oneFracDigitPat : Pattern := fun t => if t = "W" then some (some "1,234.5") else none

/-- C2 counterexample: the capture "1,234.5" contains a thousands
separator, and the returned string "1234.5" has its comma removed but only
one digit after the decimal point, so the output is not always in
two-decimal form. -/
theorem extractMoneyField_one_frac_digit :
    extractMoneyField "W" [oneFracDigitPat] = some "1234.5" ∧
      ',' ∈ "1,234.5".toList ∧
      hasTwoDecimals "1234.5" = false := by
  refine ⟨by decide, by decide, by decide⟩

/-- C3 amended: a rule whose match is null, whose capture group did not
participate, or whose capture is the empty string is skipped and the next
rule is tried; but the emptiness test precedes trimming, so the first rule
whose capture is any non-empty string returns immediately with the trimmed
capture — even when the capture is whitespace-only and trims to the empty
string. -/
theorem extractField_skip_and_return :
    (∀ (text : String) (p : Pattern) (rest : List Pattern),
        p text = none ∨ p text = some none ∨ p text = some (some "") →
        extractField text (p :: rest) = extractField text rest) ∧
      (∀ (text : String) (p : Pattern) (rest : List Pattern) (g : String),
        p text = some (some g) → g ≠ "" →
        extractField text (p :: rest) = some (trimJS g)) := by
  constructor
  · rintro text p rest (h | h | h) <;> simp [extractField, h]
  · intro text p rest g h hg
    simp [extractField, h, hg]

/-- A rule that never matches. -/
def nonePattern : Pattern := fun _ => none

/-- A rule that always captures "B". -/
def bPattern : Pattern := fun _ => some (some "B")

/-- Witness for the amended C3: a non-matching head rule is skipped. -/
theorem extractField_skip_witness :
    extractField "X" [nonePattern, bPattern] = extractField "X" [bPattern] :=
  extractField_skip_and_return.1 "X" nonePattern [bPattern] (Or.inl rfl)

/-- A rule capturing a single space on the text "X". -/
def wsPattern : Pattern := fun t => if t = "X" then some (some " ") else none

/-- C3 counterexample: a rule capturing the whitespace-only string " " is
truthy in JS, so extractField returns the trimmed empty string from it
instead of proceeding to the next rule, which would have produced "B"; no
rule here has a capture that is non-empty after trimming, yet a value is
returned. -/
theorem extractField_whitespace_counterexample :
    extractField "X" [wsPattern, bPattern] = some "" ∧
      trimJS " " = "" ∧
      extractField "X" [bPattern] = some "B" := by
  refine ⟨by decide, by decide, by decide⟩

/-- C7: when no rule of the list matches the text, extractField returns
null (`none`); absence of a match is an ordinary outcome, not an error. -/
theorem extractField_none_of_no_match (text : String) (pats : List Pattern)
    (h : ∀ p ∈ pats, p text = none) :
    extractField text pats = none := by
  induction pats with
  | nil => rfl
  | cons p rest ih =>
    have hp : p text = none := h p (by simp)
    simp only [extractField, hp]
    exact ih (fun q hq => h q (by simp [hq]))

/-- Witness for C7: a single never-matching rule yields null. -/
theorem extractField_none_witness : extractField "T" [nonePattern] = none :=
  extractField_none_of_no_match "T" [nonePattern] (by
    intro p hp
    simp only [List.mem_singleton] at hp
    subst hp
    rfl)

/-! ## extract-w2 record assembly and 1098 generation -/

/-- JS `a || b` where `a` is a string or null/undefined: null, undefined
and the empty string are falsy and select the default. -/
def jsOrStr (v : Option String) (d : String) : String :=
  match v with
  | none => d
  | some s => if s = "" then d else s

/-- The `extractedData` object of the extract-w2 route (the metadata
fields `extractionDate` and `fileName` carry no extracted content and are
not modelled). -/
structure W2Extracted where
  employeeName : String
  employerName : String
  box1_wages : String
  box2_federalTax : String
  box3_socialSecurityWages : String
  box4_socialSecurityTax : String
  box5_medicareWages : String
  box6_medicareTax : String
deriving Repr, DecidableEq

/-- Assembly of `extractedData`: `employeeName || 'Not found'`,
`box1_wages || '0.00'`, and so on for every field. -/
def assembleW2 (en er b1 b2 b3 b4 b5 b6 : Option String) : W2Extracted where
  employeeName := jsOrStr en "Not found"
  employerName := jsOrStr er "Not found"
  box1_wages := jsOrStr b1 "0.00"
  box2_federalTax := jsOrStr b2 "0.00"
  box3_socialSecurityWages := jsOrStr b3 "0.00"
  box4_socialSecurityTax := jsOrStr b4 "0.00"
  box5_medicareWages := jsOrStr b5 "0.00"
  box6_medicareTax := jsOrStr b6 "0.00"

/-- The extract-w2 route: run the extractors over the PDF text with the
per-field pattern lists and assemble the record. -/
def extractW2Data (text : String)
    (namePats employerPats w1 w2f w3 w4 w5 w6 : List Pattern) : W2Extracted :=
  assembleW2 (extractField text namePats) (extractField text employerPats)
    (extractMoneyField text w1) (extractMoneyField text w2f) (extractMoneyField text w3)
    (extractMoneyField text w4) (extractMoneyField text w5) (extractMoneyField text w6)

/-- A rule capturing "0" on the text "Box 1: 0". -/
def zeroPattern : Pattern := fun t => if t = "Box 1: 0" then some (some "0") else none

/-- C9: every field of the assembled W-2 record is a non-null string: with
no successful extraction the record holds the sentinels "Not found" for
names and "0.00" for money boxes; and a genuinely extracted "0.00" yields
the same record as a failed extraction, so the two are indistinguishable
("0.00" is a value `extractMoneyField` really produces, e.g. from the
capture "0"). -/
theorem extractW2_record_sentinels :
    (∀ text : String,
        extractW2Data text [] [] [] [] [] [] [] [] =
          { employeeName := "Not found", employerName := "Not found",
            box1_wages := "0.00", box2_federalTax := "0.00",
            box3_socialSecurityWages := "0.00", box4_socialSecurityTax := "0.00",
            box5_medicareWages := "0.00", box6_medicareTax := "0.00" }) ∧
      (∀ en er b2 b3 b4 b5 b6 : Option String,
        assembleW2 en er (some "0.00") b2 b3 b4 b5 b6 =
          assembleW2 en er none b2 b3 b4 b5 b6) ∧
      extractMoneyField "Box 1: 0" [zeroPattern] = some "0.00" := by
  refine ⟨fun text => rfl, fun en er b2 b3 b4 b5 b6 => ?_, by decide⟩
  simp [assembleW2, jsOrStr]

/-- Numeric value of a digit list, most significant digit first. -/
def digitsVal (l : List Char) : ℕ := l.foldl (fun n c => 10 * n + (c.toNat - 48)) 0

/-- The scanning phase of JS `parseFloat` on decimal literals: skip leading
whitespace, read an optional sign, then digits with at most one decimal
point; `none` models NaN (no digits consumed). Yields the sign flag and the
integer and fraction digit runs. The exponent and Infinity forms of full
parseFloat never occur in the money strings of this code and are not
modelled. -/
def parseFloatParts (s : String) : Option (Bool × List Char × List Char) :=
  let l := s.toList.dropWhile (fun c => c.isWhitespace)
  let neg := l.head? == some '-'
  let l1 := if l.head? == some '-' || l.head? == some '+' then l.tail else l
  let intPart := l1.takeWhile (fun c => c.isDigit)
  let r1 := l1.dropWhile (fun c => c.isDigit)
  let fracPart :=
    match r1 with
    | '.' :: r => r.takeWhile (fun c => c.isDigit)
    | _ => []
  if intPart.isEmpty && fracPart.isEmpty then none
  else some (neg, intPart, fracPart)

/-- The numeric value of a scanned decimal literal. -/
def floatValOf : Bool × List Char × List Char → ℚ
  | (neg, intPart, fracPart) =>
    (if neg then -1 else 1) *
      ((digitsVal intPart : ℚ) + (digitsVal fracPart : ℚ) / (10 : ℚ) ^ fracPart.length)

/-- JS `parseFloat` on decimal literals; `none` models NaN. -/
def parseFloatJS (s : String) : Option ℚ := (parseFloatParts s).map floatValOf

/-- `parseFloat('0')` is zero. -/
theorem parseFloatJS_zero_str : parseFloatJS "0" = some 0 := by
  have h : parseFloatParts "0" = some (false, ['0'], []) := by decide
  have hd : digitsVal ['0'] = 0 := by decide
  have hd2 : digitsVal [] = 0 := by decide
  simp [parseFloatJS, h, floatValOf, hd, hd2]

/-- The threshold cascade of `calculateStudentLoanInterest` on the parsed
wages. -/
def slOfWages (w : ℚ) : String :=
  if w > 30000 then "2500.00"
  else if w > 20000 then "1500.00"
  else if w > 10000 then "800.00"
  else "0.00"

/-- `calculateStudentLoanInterest(w2Data)`:
`const wages = parseFloat(w2Data.box1_wages || '0')` followed by the
threshold cascade; when the parse is NaN every comparison is false and the
final else yields "0.00". -/
def calculateStudentLoanInterest (box1_wages : Option String) : String :=
  match parseFloatJS (jsOrStr box1_wages "0") with
  | none => "0.00"
  | some w => slOfWages w

/-- Dollar value of the four possible outputs. -/
def slVal (s : String) : ℚ :=
  if s = "2500.00" then 2500
  else if s = "1500.00" then 1500
  else if s = "800.00" then 800
  else 0

/-- C10: `calculateStudentLoanInterest` returns one of exactly four
strings, returns "0.00" when the wages field is absent or does not parse as
a number, follows the threshold cascade on the parsed wages, and its dollar
value is monotone non-decreasing in the parsed wages. -/
theorem calculateStudentLoanInterest_spec :
    (∀ b, calculateStudentLoanInterest b ∈ ["0.00", "800.00", "1500.00", "2500.00"]) ∧
      calculateStudentLoanInterest none = "0.00" ∧
      (∀ s, parseFloatJS s = none → calculateStudentLoanInterest (some s) = "0.00") ∧
      (∀ s w, s ≠ "" → parseFloatJS s = some w →
        calculateStudentLoanInterest (some s) =
          if 30000 < w then "2500.00"
          else if 20000 < w then "1500.00"
          else if 10000 < w then "800.00"
          else "0.00") ∧
      (∀ w1 w2 : ℚ, w1 ≤ w2 → slVal (slOfWages w1) ≤ slVal (slOfWages w2)) := by
  refine ⟨?_, ?_, ?_, ?_, ?_⟩
  · intro b
    unfold calculateStudentLoanInterest
    cases parseFloatJS (jsOrStr b "0") with
    | none => simp
    | some w =>
      simp only [slOfWages]
      split_ifs <;> simp
  · show (match parseFloatJS (jsOrStr none "0") with
      | none => "0.00"
      | some w => slOfWages w) = "0.00"
    rw [show jsOrStr none "0" = "0" from rfl, parseFloatJS_zero_str]
    norm_num [slOfWages]
  · intro s hs
    by_cases hemp : s = ""
    · subst hemp
      show (match parseFloatJS (jsOrStr (some "") "0") with
        | none => "0.00"
        | some w => slOfWages w) = "0.00"
      rw [show jsOrStr (some "") "0" = "0" from rfl, parseFloatJS_zero_str]
      norm_num [slOfWages]
    · simp [calculateStudentLoanInterest, jsOrStr, hemp, hs]
  · intro s w hemp hw
    simp [calculateStudentLoanInterest, jsOrStr, hemp, hw, slOfWages, gt_iff_lt]
  · intro w1 w2 h
    unfold slOfWages
    split_ifs <;> first | decide | linarith

/-- Witness for C10: monotonicity at wages 100 and 40000, and the
unparseable wages string "abc". -/
theorem calculateStudentLoanInterest_spec_witness :
    slVal (slOfWages 100) ≤ slVal (slOfWages 40000) ∧
      calculateStudentLoanInterest (some "abc") = "0.00" :=
  ⟨calculateStudentLoanInterest_spec.2.2.2.2 100 40000 (by norm_num),
    calculateStudentLoanInterest_spec.2.2.1 "abc" (by decide)⟩

end TaxAU
